import Mathlib

/-!
Verification development for a multi-agent chat coordination system.
The embedding covers:
  * the coordinator spam filter, name-mention helpers and the general-request
    heuristic from main.py;
  * the routing cascade of process_message_interest_after_delay (main.py);
  * the debounced interest aggregator of coordinate_user_responses (main.py);
  * the persistent store shared_memory.py: add_conversation, the
    recently-used-topic ledger, save_data backups, _try_restore_from_backup,
    and load_data field backfilling.
Message texts are modelled as lists of characters; Python string operations
are translated to explicit list functions.
-/

/-- Texts are lists of characters (Python strings). -/
abbrev Str := List Char

/-- Python str.lower() (ASCII behaviour). -/
def lowerS (s : Str) : Str := s.map Char.toLower

/-- Checks that the first list is a prefix of the second (Boolean). -/
def isPrefixL : Str → Str → Bool
  | [], _ => true
  | _ :: _, [] => false
  | a :: as, b :: bs => a == b && isPrefixL as bs

/-- Python substring test: `sub in s`. -/
def containsSub (sub : Str) : Str → Bool
  | [] => sub.isEmpty
  | c :: rest => isPrefixL sub (c :: rest) || containsSub sub rest

/-- Drops through the first occurrence of `sub`, returning the remainder after
that occurrence, or `none` when `sub` does not occur.  Mirrors regex
backtracking for patterns of the form `.*A.*B.*`. -/
def dropAfterFirst (sub : Str) : Str → Option Str
  | [] => if sub.isEmpty then some [] else none
  | c :: rest =>
      if isPrefixL sub (c :: rest) then some ((c :: rest).drop sub.length)
      else dropAfterFirst sub rest

/-- Sequential containment: each piece occurs, in order, after the previous
one.  Mirrors `re.search(".*A.*B.*", s)`. -/
def seqContains : List Str → Str → Bool
  | [], _ => true
  | p :: ps, s =>
      match dropAfterFirst p s with
      | none => false
      | some rest => seqContains ps rest

/-- Consumes a maximal run of digits, returning its length and the rest. -/
def dropDigits : Str → Nat × Str
  | [] => (0, [])
  | c :: rest =>
      if c.isDigit then
        let p := dropDigits rest
        (p.1 + 1, p.2)
      else (0, c :: rest)

/-- Matches the regex tail `\d+ \| \d+` at the start of the input. -/
def statTail (s : Str) : Bool :=
  let p := dropDigits s
  decide (1 ≤ p.1) && isPrefixL (" | ".toList) p.2 &&
    (match p.2.drop 3 with
     | c :: _ => c.isDigit
     | [] => false)

/-- Occurrence of `label` followed by `\d+ \| \d+` anywhere in the text.
Mirrors `re.search(".*Likes \d+ \| \d+.*", s, re.IGNORECASE)` with a
lowercased label on a lowercased text. -/
def statOccurs (label : Str) : Str → Bool
  | [] => false
  | c :: rest =>
      (isPrefixL label (c :: rest) && statTail ((c :: rest).drop label.length)) ||
      statOccurs label rest

/-- Helper for `wordsOf`, carrying the current (reversed) word. -/
def wordsAux : Str → Str → List Str
  | cur, [] => if cur.isEmpty then [] else [cur.reverse]
  | cur, c :: rest =>
      if c.isWhitespace then
        if cur.isEmpty then wordsAux [] rest else cur.reverse :: wordsAux [] rest
      else wordsAux (c :: cur) rest

/-- Python str.split(): split on whitespace runs, dropping empties. -/
def wordsOf (s : Str) : List Str := wordsAux [] s

/-- Python str.strip(). -/
def stripWs (s : Str) : Str :=
  ((s.dropWhile Char.isWhitespace).reverse.dropWhile Char.isWhitespace).reverse

/-- Python text.endswith("?"). -/
def endsWithQ (s : Str) : Bool :=
  match s.reverse with
  | c :: _ => c == '?'
  | [] => false

/-- The coordinator-level spam pattern table of
process_message_interest_after_delay (main.py lines 183-209), translated
pattern by pattern; the argument is the lowercased message text, matching
`re.search(pattern, message_text, re.IGNORECASE)`. -/
def spamPatternHit (t : Str) : Bool :=
  containsSub ("forwarded from".toList) t ||
  containsSub ("booost:".toList) t || containsSub ("booosts:".toList) t ||
  seqContains [("raid".toList), ("for".toList), ("evan".toList)] t ||
  containsSub ("raid".toList) t ||
  seqContains [("raid".toList), ("evan".toList)] t ||
  seqContains [("evan".toList), ("raid".toList)] t ||
  containsSub ("💰 forwarded from".toList) t ||
  containsSub ("$evan | lord of degens".toList) t ||
  containsSub ("evanraiderbot".toList) t ||
  containsSub ("ruginaha:".toList) t ||
  containsSub ("forwarded message".toList) t ||
  containsSub ("t.me/".toList) t ||
  containsSub ("https://x.com/".toList) t ||
  statOccurs ("likes ".toList) t ||
  statOccurs ("retweets ".toList) t ||
  statOccurs ("replies ".toList) t ||
  containsSub ("tg://resolve?domain=".toList) t ||
  seqContains [("airdrop".toList), (".com".toList)] t ||
  seqContains [("giveaway".toList), (".com".toList)] t ||
  seqContains [("promo".toList), (".com".toList)] t ||
  seqContains [("token".toList), ("sale".toList), (".com".toList)] t ||
  containsSub ("flooz.io".toList) t ||
  seqContains [("raydium.io".toList), ("pump".toList)] t

/-- Additional coordinator spam rule (main.py lines 219-223): an `evan`
mention co-occurring with suspicious vocabulary. -/
def evanSuspicious (t : Str) : Bool :=
  (containsSub ("$evan".toList) t || containsSub ("evan".toList) t) &&
  ([("forwarded".toList), ("boost".toList), ("raid".toList), ("promotion".toList),
    ("vote".toList), ("bot".toList), ("airdrop".toList), ("giveaway".toList)].any
      (fun p => containsSub p t))

/-- Coordinator-level spam verdict for a message text (main.py 179-223). -/
def isSpam (text : Str) : Bool :=
  spamPatternHit (lowerS text) || evanSuspicious (lowerS text)

/-- Personality name of each bot id, from the bot_personalities table of
conversation_manager.py. -/
def botNameOf (b : String) : Str :=
  if b = "bot1" then ("BTC Max".toList)
  else if b = "bot2" then ("$EVAN the hobo".toList)
  else if b = "bot3" then ("Goldilocks".toList)
  else []

/-- Translation of is_bot_name_mentioned (main.py 69-90): a substring check
on the personality name, then a whitespace-token membership check for the
per-bot nicknames. -/
def isBotNameMentioned (b : String) (text : Str) (bots : List String) : Bool :=
  if text.isEmpty || !(bots.contains b) then false
  else
    let tl := lowerS text
    if containsSub (lowerS (botNameOf b)) tl then true
    else if b = "bot1" then
      (wordsOf tl).contains ("max".toList) || (wordsOf tl).contains ("btc".toList)
    else if b = "bot2" then
      (wordsOf tl).contains ("evan".toList) || (wordsOf tl).contains ("$evan".toList)
    else if b = "bot3" then
      (wordsOf tl).contains ("goldy".toList) || (wordsOf tl).contains ("goldilocks".toList)
    else false

/-- Per-bot topical indicator lists of personality_mentions_bot
(main.py 92-115). -/
def botIndicators (b : String) : List Str :=
  if b = "bot1" then
    [("bitcoin".toList), ("btc".toList), ("crypto".toList), ("trading".toList),
     ("hodl".toList), ("chart".toList), ("conference".toList), ("wharton".toList),
     ("miami".toList), ("tesla".toList), ("f1".toList)]
  else if b = "bot2" then
    [("liquidity".toList), ("cat".toList), ("degen".toList), ("storage".toList),
     ("unit".toList), ("hobo".toList), ("ramen".toList), ("energy drink".toList),
     ("rugpull".toList), ("rug".toList), ("wallet".toList)]
  else if b = "bot3" then
    [("gold".toList), ("kids".toList), ("family".toList), ("children".toList),
     ("goldilocks".toList), ("balance".toList), ("portfolio".toList), ("husband".toList),
     ("david".toList), ("emma".toList), ("jackson".toList), ("lily".toList)]
  else []

/-- Translation of personality_mentions_bot (main.py 92-115). -/
def personalityMentionsBot (text : Str) (b : String) (bots : List String) : Bool :=
  if text.isEmpty || !(bots.contains b) then false
  else (botIndicators b).any (fun p => containsSub p (lowerS text))

/-- Request phrase table of is_general_request (main.py 277-289). -/
def requestPhrases : List Str :=
  [("can someone".toList), ("can anyone".toList), ("anyone know".toList),
   ("get me".toList), ("find me".toList), ("show me".toList),
   ("check on".toList), ("tell me".toList), ("look up".toList),
   ("search for".toList), ("what are".toList), ("whats".toList), ("what\x27s".toList),
   ("what is happening".toList), ("what\x27s happening".toList), ("whats happening".toList),
   ("what is going on".toList), ("what\x27s going on".toList), ("whats going on".toList),
   ("update on".toList), ("latest on".toList), ("news from".toList), ("news on".toList),
   ("anything new".toList), ("any news".toList), ("so any".toList), ("give me".toList),
   ("who knows".toList), ("you guys".toList), ("what about".toList), ("trenches".toList),
   ("updates".toList), ("anyone here".toList), ("somebody".toList),
   ("search".toList), ("look up".toList), ("find".toList), ("get info".toList),
   ("information on".toList), ("details about".toList), ("latest news".toList),
   ("recent news".toList), ("news about".toList), ("news now".toList), ("rugs".toList),
   ("rug pulls".toList), ("find news".toList), ("search news".toList),
   ("get news".toList), ("crypto news".toList)]

/-- Question-starter word table of is_general_request (main.py 296). -/
def questionStarters : List Str :=
  [("what".toList), ("how".toList), ("who".toList), ("where".toList), ("why".toList),
   ("when".toList), ("is".toList), ("are".toList), ("can".toList), ("could".toList),
   ("do".toList), ("does".toList), ("has".toList), ("have".toList),
   ("should".toList), ("would".toList)]

/-- Casual interjections excluded by the short-message rule (main.py 318). -/
def casualWords : List Str :=
  [("hi".toList), ("hello".toList), ("hey".toList), ("lol".toList), ("haha".toList),
   ("nice".toList), ("cool".toList), ("wow".toList)]

/-- Translation of is_general_request (main.py 273-322). -/
def isGeneralRequest (text : Str) : Bool :=
  let tl := stripWs (lowerS text)
  if requestPhrases.any (fun p => containsSub p tl) then true
  else
    let ws := wordsOf tl
    if questionStarters.contains (ws.headD []) then true
    else if endsWithQ text then true
    else if containsSub ("trenches".toList) tl then true
    else if decide (2 ≤ ws.length) && decide (ws.length ≤ 5) &&
            !(ws.any (fun w => casualWords.contains w)) then true
    else false

/-- Conversation record persisted in the store document (shared_memory.py);
absent dictionary keys are modelled as `none`.  `payload` stands for the
remaining record fields (message text et cetera). -/
structure ConvRec where
  message_id : Option Nat := none
  sender_type : Option String := none
  sender_id : Option String := none
  in_reply_to : Option Nat := none
  timestamp : Option Nat := none
  payload : Nat := 0
deriving DecidableEq, Repr

/-- Python truthiness of the record's sender id (non-None and non-empty). -/
def senderTruthy (r : ConvRec) : Bool :=
  match r.sender_id with
  | some s => !(s = "")
  | none => false

/-- Last `n` elements, as returned by get_recent_conversations(n)
(shared_memory.py 487-515: `conversations[-limit:]`). -/
def lastN (n : Nat) (l : List ConvRec) : List ConvRec := l.drop (l.length - n)

/-- First scan of the reply branch (main.py 343-354): the first record with
the replied-to message id that was sent by a bot with a truthy sender id. -/
def findRepliedBot (recent : List ConvRec) (rid : Nat) : Option String :=
  match recent with
  | [] => none
  | r :: rest =>
      if r.message_id == some rid && r.sender_type == some "bot" && senderTruthy r then
        r.sender_id
      else findRepliedBot rest rid

/-- Secondary inference of the reply branch (main.py 357-369): when some bot
record replied to the target id, attribute by message content, taking the
first registry bot whose name is mentioned or that is named literally. -/
def inferFromReplyChain (recent : List ConvRec) (rid : Nat) (text : Str)
    (bots : List String) : Option String :=
  if recent.any (fun m => m.in_reply_to == some rid && m.sender_type == some "bot") then
    bots.find? (fun b =>
      containsSub (lowerS (("message from ".toList) ++ b.toList)) (lowerS text) ||
      isBotNameMentioned b text bots)
  else none

/-- Reply fallback scan of the final check (main.py 531-538): the loop has no
break, so the last matching record whose sender is a registry bot wins. -/
def lastRepliedBotIn (recent : List ConvRec) (rid : Nat) (bots : List String) :
    Option String :=
  ((recent.filter (fun m =>
      m.message_id == some rid && m.sender_type == some "bot" && senderTruthy m &&
      bots.contains (m.sender_id.getD ""))).getLast?).bind (fun m => m.sender_id)

/-- Assignment reason of a direct reply (main.py 372-389). -/
def directReplyReason (b : String) : String :=
  if b = "bot1" then "direct_reply_to_btcmax"
  else if b = "bot2" then "direct_reply_to_evan"
  else if b = "bot3" then "direct_reply_to_goldilocks"
  else "direct_reply_to_bot"

/-- Content-based fallback for unidentified replies (main.py 420-428). -/
def contentMentionFallback (bots : List String) (text : Str) :
    List String × Option String :=
  match bots.find? (fun b =>
      containsSub (lowerS (botNameOf b)) (lowerS text) ||
      containsSub (lowerS b.toList) (lowerS text)) with
  | some b => ([b], some "content_mention_fallback")
  | none => ([], none)

/-- An interest report as queued by a bot handler and consumed by the
coordinator (main.py). -/
structure Report where
  is_interested : Bool := false
  is_personal_question : Bool := false
  message_text : Str := []
  replied_to : Option Nat := none
deriving DecidableEq, Repr

/-- The two `random.random()` draws and the `random.choice` of the
general-request stage, made explicit so routing is a function.
`assignChoice` is the percentage draw compared against 70 and 85. -/
structure RNG where
  assignChoice : Nat
  short30 : Bool
  pick : List String → String

/-- Outcome of one run of the routing pipeline: the selected responder list,
the assignment reason, and whether the code path deletes the message id from
pending_interest_reports before returning. -/
structure RouteResult where
  selected : List String
  reason : Option String
  removesPending : Bool
deriving DecidableEq, Repr

/-- Name-mention stage (main.py 431-457). -/
def nameMentionStage (bots : List String) (text : Str) :
    List String × Option String :=
  let mentioned := bots.filter (fun b => isBotNameMentioned b text bots)
  if mentioned.length == 1 then (mentioned, some "name_mention")
  else if 1 < mentioned.length then (mentioned, some "multiple_name_mentions")
  else ([], none)

/-- General-request stage (main.py 486-521). -/
def generalStage (bots : List String) (text : Str) (rng : RNG) :
    List String × Option String :=
  if isGeneralRequest text then
    if decide (rng.assignChoice < 70) && bots.contains "bot2" then
      (["bot2"], some "general_request")
    else if decide (rng.assignChoice < 85) && bots.contains "bot1" then
      (["bot1"], some "general_request")
    else if bots.contains "bot3" then (["bot3"], some "general_request")
    else if !bots.isEmpty then ([rng.pick bots], some "general_request_fallback")
    else ([], none)
  else if decide ((wordsOf text).length ≤ 5) && bots.contains "bot2" && rng.short30 then
    (["bot2"], some "random_short_message_fallback")
  else ([], none)

/-- Reply phrase table of the final check (main.py 558-563). -/
def replyPhrases : List Str :=
  [("glad you".toList), ("why did you".toList), ("how did you".toList),
   ("tell me more".toList), ("when did you".toList), ("where did you".toList),
   ("glad to hear".toList), ("that\x27s great".toList), ("that\x27s good".toList),
   ("congratulations".toList), ("congrats".toList), ("thanks for".toList),
   ("thank you for".toList), ("appreciate your".toList), ("interesting point".toList),
   ("good point".toList), ("nice to hear".toList), ("sorry to hear".toList),
   ("that\x27s too bad".toList)]

/-- Search keyword table of the final check (main.py 572-573); matching is
membership in the word list of the message. -/
def searchKeywords : List Str :=
  [("search".toList), ("find".toList), ("look up".toList), ("check".toList),
   ("news".toList), ("info".toList), ("current".toList), ("latest".toList),
   ("update".toList), ("price".toList), ("rugs".toList), ("status".toList)]

/-- Final check of the pipeline (main.py 523-592): reply fallbacks, the
content and phrase fallbacks, the search-keyword fallback, else ignore. -/
def finalStage (bots : List String) (store : List ConvRec) (text : Str)
    (rto : Option Nat) : RouteResult :=
  let tl := lowerS text
  let s1 : List String × Option String :=
    if rto.getD 0 ≠ 0 then
      match lastRepliedBotIn (lastN 1000 store) (rto.getD 0) bots with
      | some b => ([b], some "direct_reply_fallback")
      | none =>
          match bots.find? (fun b =>
              isBotNameMentioned b text bots || personalityMentionsBot text b bots) with
          | some b => ([b], some "content_reference_fallback")
          | none =>
              if containsSub ("liquidity".toList) tl && containsSub ("cat".toList) tl &&
                 bots.contains "bot2" then
                (["bot2"], some "liquidity_cat_fallback")
              else if replyPhrases.any (fun p => containsSub p tl) &&
                      bots.contains "bot2" then
                (["bot2"], some "reply_phrase_fallback")
              else ([], none)
    else ([], none)
  if s1.1.isEmpty then
    if searchKeywords.any (fun k => (wordsOf tl).contains k) then
      if bots.contains "bot2" then ⟨["bot2"], some "search_keyword_fallback", false⟩
      else if bots.contains "bot1" then ⟨["bot1"], some "search_keyword_fallback", false⟩
      else if bots.contains "bot3" then ⟨["bot3"], some "search_keyword_fallback", false⟩
      else ⟨[], none, false⟩
    else ⟨[], none, false⟩
  else ⟨s1.1, s1.2, false⟩

/-- Continuation after the main if/elif chain (main.py 486 onwards): the
general-request stage runs only on an empty selection, then the final check,
else the selection is dispatched unchanged. -/
def afterChain (bots : List String) (store : List ConvRec) (text : Str)
    (rto : Option Nat) (rng : RNG) (sel : List String × Option String) :
    RouteResult :=
  let sel2 := if sel.1.isEmpty then generalStage bots text rng else sel
  if sel2.1.isEmpty then finalStage bots store text rto
  else ⟨sel2.1, sel2.2, false⟩

/-- Reply branch of the chain (main.py 333-429). -/
def replyBranch (bots : List String) (store : List ConvRec) (text : Str)
    (rid : Nat) (rto : Option Nat) (rng : RNG) : RouteResult :=
  let recent := lastN 500 store
  let rb :=
    match findRepliedBot recent rid with
    | some b => some b
    | none => inferFromReplyChain recent rid text bots
  match rb with
  | some b =>
      if bots.contains b then ⟨[b], some (directReplyReason b), true⟩
      else afterChain bots store text rto rng (contentMentionFallback bots text)
  | none => afterChain bots store text rto rng (contentMentionFallback bots text)

/-- Main if/elif chain of process_message_interest_after_delay
(main.py 324-521): token mention, then reply resolution, then name mention;
the interest-based block at main.py 459-484 is the fourth `elif` of the same
chain and is translated exactly as written. -/
def routeChain (bots : List String) (store : List ConvRec) (text : Str)
    (rto : Option Nat) (rng : RNG) : RouteResult :=
  if containsSub ("$evan".toList) (lowerS text) && bots.contains "bot2" then
    afterChain bots store text rto rng (["bot2"], some "$evan_token_mention")
  else if rto.getD 0 ≠ 0 then
    replyBranch bots store text (rto.getD 0) rto rng
  else
    afterChain bots store text rto rng (nameMentionStage bots text)

/-- The routing pipeline of process_message_interest_after_delay
(main.py 161-625) as a function of the report bundle: spam veto, the
personal-question override, then the main chain.  The first report supplies
the message text and reply metadata, as in the code. -/
def route (bots : List String) (store : List ConvRec)
    (reports : List (String × Report)) (rng : RNG) : RouteResult :=
  match reports with
  | [] => ⟨[], none, false⟩
  | (_, fr) :: _ =>
      if isSpam fr.message_text then ⟨[], none, true⟩
      else
        let pq := reports.filter (fun p => p.2.is_personal_question)
        if !pq.isEmpty then ⟨pq.map (fun p => p.1), some "personal_question", true⟩
        else routeChain bots store fr.message_text fr.replied_to rng

/-- Pending aggregation bucket of pending_interest_reports (main.py 48):
the per-bot report map and whether a timer handle has been installed. -/
structure Bucket where
  reports : List (String × Report)
  timerSet : Bool
deriving DecidableEq, Repr

/-- Aggregator state: the pending map, the debounce timers that have been
scheduled but have not fired yet, and the log of pipeline invocations
(one entry per run of process_message_interest_after_delay). -/
structure AggState where
  pending : List (Nat × Bucket) := []
  scheduled : List Nat := []
  invoked : List Nat := []
deriving DecidableEq, Repr

/-- Events of the aggregator: an interest report arriving on the queue, or a
scheduled debounce timer firing. -/
inductive AggEv where
  | report (m : Nat) (bot : String) (r : Report)
  | fire (m : Nat)

/-- Association-list lookup on the pending map. -/
def pendingGet (p : List (Nat × Bucket)) (m : Nat) : Option Bucket :=
  (p.find? (fun q => q.1 == m)).map (fun q => q.2)

/-- Association-list update on the pending map. -/
def pendingSet (p : List (Nat × Bucket)) (m : Nat) (b : Bucket) :
    List (Nat × Bucket) :=
  if p.any (fun q => q.1 == m) then
    p.map (fun q => if q.1 == m then (m, b) else q)
  else p ++ [(m, b)]

/-- Association-list removal on the pending map
(`del pending_interest_reports[message_id]`). -/
def pendingErase (p : List (Nat × Bucket)) (m : Nat) : List (Nat × Bucket) :=
  p.filter (fun q => !(q.1 == m))

/-- Python dict overwrite: a resubmitted report replaces the prior one from
the same bot, keeping its insertion position. -/
def updateReports (rs : List (String × Report)) (b : String) (r : Report) :
    List (String × Report) :=
  if rs.any (fun p => p.1 == b) then
    rs.map (fun p => if p.1 == b then (b, r) else p)
  else rs ++ [(b, r)]

/-- The aggressive Evan protection of coordinate_user_responses
(main.py 131-136): reports from bot2 on suspicious evan texts are dropped
before they are stored. -/
def coordDrop (b : String) (r : Report) : Bool :=
  b = "bot2" &&
  (containsSub ("evan".toList) (lowerS r.message_text) ||
   containsSub ("$evan".toList) (lowerS r.message_text)) &&
  ([("raid".toList), ("forward".toList), ("boost".toList), ("vote".toList),
    ("promotion".toList), ("bot".toList), ("airdrop".toList)].any
      (fun p => containsSub p (lowerS r.message_text)))

/-- Report handling of coordinate_user_responses (main.py 117-159): the
report is stored in the defaultdict bucket for its message id, and a debounce
timer is started when the bucket has no timer handle yet. -/
def handleReport (st : AggState) (m : Nat) (b : String) (r : Report) : AggState :=
  if coordDrop b r then st
  else
    match pendingGet st.pending m with
    | some bk =>
        let bk2 : Bucket := ⟨updateReports bk.reports b r, bk.timerSet⟩
        if bk.timerSet then { st with pending := pendingSet st.pending m bk2 }
        else
          { st with
            pending := pendingSet st.pending m ⟨bk2.reports, true⟩,
            scheduled := st.scheduled ++ [m] }
    | none =>
        { st with
          pending := st.pending ++ [(m, ⟨[(b, r)], true⟩)],
          scheduled := st.scheduled ++ [m] }

/-- Removal of one scheduled timer for a message id (the timer is one-shot). -/
def removeOneTimer (sched : List Nat) (m : Nat) : List Nat :=
  match sched with
  | [] => []
  | x :: rest => if x == m then rest else x :: removeOneTimer rest m

/-- Timer expiry: process_message_interest_after_delay runs for the message
id (main.py 161-625).  The pending bucket is read with a non-creating get;
the routing pipeline runs when reports exist, and the code path decides
whether the message id is deleted from the pending map. -/
def handleFire (bots : List String) (store : List ConvRec) (rng : RNG)
    (st : AggState) (m : Nat) : AggState :=
  if st.scheduled.contains m then
    let st1 : AggState :=
      { st with scheduled := removeOneTimer st.scheduled m,
                invoked := st.invoked ++ [m] }
    let rs := ((pendingGet st1.pending m).map Bucket.reports).getD []
    if rs.isEmpty then st1
    else
      let res := route bots store rs rng
      if res.removesPending then { st1 with pending := pendingErase st1.pending m }
      else st1
  else st

/-- One coordinator/timer event. -/
def aggStep (bots : List String) (store : List ConvRec) (rng : RNG)
    (st : AggState) : AggEv → AggState
  | .report m b r => handleReport st m b r
  | .fire m => handleFire bots store rng st m

/-- Runs the aggregator over an event trace from the empty initial state. -/
def aggRun (bots : List String) (store : List ConvRec) (rng : RNG)
    (evs : List AggEv) : AggState :=
  evs.foldl (aggStep bots store rng) {}

/-- Duplicate test of add_conversation (shared_memory.py 453-465): it runs
only when the incoming record carries both a message id and a sender type. -/
def dupKey (log : List ConvRec) (r : ConvRec) : Bool :=
  match r.message_id, r.sender_type with
  | some _, some _ =>
      log.any (fun e => e.message_id == r.message_id && e.sender_type == r.sender_type)
  | _, _ => false

/-- Timestamp defaulting of add_conversation (shared_memory.py 468-469). -/
def withTimestamp (r : ConvRec) (now : Nat) : ConvRec :=
  match r.timestamp with
  | none => { r with timestamp := some now }
  | some _ => r

/-- Translation of SharedMemory.add_conversation (shared_memory.py 441-485)
acting on the conversations list: duplicate keys are rejected, otherwise the
record is appended and the list trimmed to its last 1000 entries. -/
def addConversation (log : List ConvRec) (r : ConvRec) (now : Nat) :
    List ConvRec :=
  if dupKey log r then log
  else
    let log2 := log ++ [withTimestamp r now]
    if 1000 < log2.length then log2.drop (log2.length - 1000) else log2

/-- One entry of the recently-used-topic ledger (shared_memory.py 836-839). -/
structure TopicEntry where
  query : Str
  time : Int
deriving DecidableEq, Repr

/-- The recent_topics map of the store document: bot id to topic entries. -/
abbrev TopicMap := List (String × List TopicEntry)

/-- Association-list read on the topic map. -/
def tmGet (tm : TopicMap) (b : String) : Option (List TopicEntry) :=
  (tm.find? (fun p => p.1 == b)).map (fun p => p.2)

/-- Association-list write on the topic map. -/
def tmSet (tm : TopicMap) (b : String) (v : List TopicEntry) : TopicMap :=
  if tm.any (fun p => p.1 == b) then
    tm.map (fun p => if p.1 == b then (b, v) else p)
  else tm ++ [(b, v)]

/-- Translation of SharedMemory.add_recently_used_topic
(shared_memory.py 810-850): append the entry under the bot id and keep the
most recent 50 entries per bot. -/
def addRecentlyUsedTopic (tm : TopicMap) (b : String) (q : Str) (now : Int) :
    TopicMap :=
  let cur := (tmGet tm b).getD []
  let cur2 := cur ++ [⟨q, now⟩]
  let cur3 := if 50 < cur2.length then cur2.drop (cur2.length - 50) else cur2
  tmSet tm b cur3

/-- Translation of SharedMemory.get_recently_used_topics
(shared_memory.py 852-889): per-bot entries newer than the cutoff, with bots
whose filtered list is empty omitted. -/
def getRecentlyUsedTopics (tm : TopicMap) (minutes : Nat) (now : Int) : TopicMap :=
  (tm.map (fun p =>
      (p.1, p.2.filter (fun t => now - (minutes : Int) * 60 < t.time)))).filter
    (fun p => !p.2.isEmpty)

/-- Match test of SharedMemory.is_topic_recently_used
(shared_memory.py 913-918): lowercased equality, or containment in either
direction when the lowercased candidate is longer than 10 characters. -/
def topicMatch (usedQ q : Str) : Bool :=
  lowerS usedQ == lowerS q ||
  (decide (10 < (lowerS q).length) &&
   (containsSub (lowerS usedQ) (lowerS q) || containsSub (lowerS q) (lowerS usedQ)))

/-- First matching ledger entry in bot order then entry order. -/
def findTopicMatch (q : Str) : TopicMap → Option (String × TopicEntry)
  | [] => none
  | (b, ts) :: rest =>
      match ts.find? (fun t => topicMatch t.query q) with
      | some t => some (b, t)
      | none => findTopicMatch q rest

/-- Translation of SharedMemory.is_topic_recently_used
(shared_memory.py 891-926). -/
def isTopicRecentlyUsed (tm : TopicMap) (q : Str) (minutes : Nat) (now : Int) :
    Bool × Option (String × TopicEntry) :=
  match findTopicMatch q (getRecentlyUsedTopics tm minutes now) with
  | some bt => (true, some bt)
  | none => (false, none)

/-- Path basename, as os.path.basename on a slash-separated path. -/
def basenameOf (p : Str) : Str :=
  ((p.reverse.takeWhile (fun c => !(c == '/'))).reverse)

/-- Backup path produced by SharedMemory.save_data before a replace
(shared_memory.py 400): backups/<basename>.backup.<timestamp>. -/
def backupSavePath (filePath : Str) (ts : Str) : Str :=
  ("backups/".toList) ++ basenameOf filePath ++ (".backup.".toList) ++ ts

/-- Glob pattern test of SharedMemory._try_restore_from_backup
(shared_memory.py 279): the candidate path matches
`<file_path>.backup.*`, where `*` does not cross a path separator. -/
def restoreGlobMatch (filePath : Str) (candidate : Str) : Bool :=
  isPrefixL (filePath ++ (".backup.".toList)) candidate &&
  (candidate.drop (filePath.length + 8)).all (fun c => !(c == '/'))

/-- A file of the modelled filesystem, with its modification time. -/
structure FileEnt where
  path : Str
  content : Str
  mtime : Nat
deriving DecidableEq, Repr

/-- Newest entry of a candidate list by modification time
(`max(backup_files, key=os.path.getmtime)`). -/
def newestEnt : List FileEnt → Option FileEnt
  | [] => none
  | f :: rest =>
      match newestEnt rest with
      | none => some f
      | some g => if g.mtime ≤ f.mtime then some f else some g

/-- Translation of SharedMemory._try_restore_from_backup
(shared_memory.py 276-296): glob for `<file_path>.backup.*`, return the
newest match, or nothing when no backup file matches the pattern. -/
def tryRestoreFromBackup (fs : List FileEnt) (filePath : Str) : Option FileEnt :=
  newestEnt (fs.filter (fun f => restoreGlobMatch filePath f.path))

/-- Observable state of the primary and temporary file during save_data:
only these two paths are written by the function
(shared_memory.py 389-439). -/
structure FsimState where
  primary : Str
  tmpFile : Option Str
deriving DecidableEq, Repr

/-- Outcome of one save_data attempt: the temporary-file write fails part
way through (leaving arbitrary partial bytes in the temporary file), the
atomic rename raises after a complete temporary write, or the attempt
completes.  The backup copy step never touches the primary or temporary
file and its failures are caught and logged. -/
inductive SaveAttemptOutcome where
  | tmpWriteFail (partialContent : Str)
  | renameFail
  | ok

/-- Effect of one attempt of save_data on the two files: the serialized
content reaches the primary file only through the atomic rename, which is
the last step of a fully successful attempt. -/
def runAttempt (content : Str) (st : FsimState) : SaveAttemptOutcome → FsimState
  | .tmpWriteFail g => { st with tmpFile := some g }
  | .renameFail => { st with tmpFile := some content }
  | .ok => { primary := content, tmpFile := none }

/-- States observable by a concurrent reader during one attempt, one per
atomic file operation: after the backup copy, after the temporary-file
write, and (on success) after the rename. -/
def attemptStates (content : Str) (st : FsimState) :
    SaveAttemptOutcome → List FsimState
  | .tmpWriteFail g => [st, { st with tmpFile := some g }]
  | .renameFail => [st, { st with tmpFile := some content }]
  | .ok => [st, { st with tmpFile := some content },
            { primary := content, tmpFile := none }]

/-- Retry loop of save_data (shared_memory.py 394-439): attempts run until
one succeeds or the outcome list (of length at most max_retries) is
exhausted; the Boolean reports whether a write completed. -/
def runSave (content : Str) (st : FsimState) :
    List SaveAttemptOutcome → FsimState × Bool
  | [] => (st, false)
  | o :: os =>
      match o with
      | .ok => (runAttempt content st .ok, true)
      | _ => runSave content (runAttempt content st o) os

/-- All states observable during the retry loop. -/
def saveObservables (content : Str) (st : FsimState) :
    List SaveAttemptOutcome → List FsimState
  | [] => [st]
  | o :: os =>
      match o with
      | .ok => attemptStates content st .ok
      | _ => attemptStates content st o ++
             saveObservables content (runAttempt content st o) os

/-- The store document (shared_memory.py), with every top-level key
optional, as in a freshly parsed JSON object.  Web content items, bot topic
entries and setting/user values are abstracted to opaque payloads. -/
structure Doc where
  conversations : Option (List ConvRec) := none
  user_data : Option (List (String × Nat)) := none
  web_content : Option (List Nat) := none
  recent_bot_topics : Option (List Nat) := none
  recent_topics : Option TopicMap := none
  system_settings : Option (List (String × String)) := none
deriving DecidableEq, Repr

/-- Field backfilling performed by load_data after a successful parse
(shared_memory.py 200-210): the five required keys are defaulted to empty
containers; system_settings is not touched. -/
def backfill (d : Doc) : Doc :=
  { d with
    recent_bot_topics := some (d.recent_bot_topics.getD []),
    conversations := some (d.conversations.getD []),
    user_data := some (d.user_data.getD []),
    web_content := some (d.web_content.getD []),
    recent_topics := some (d.recent_topics.getD []) }

/-- The default document of load_data and ensure_file_exists
(shared_memory.py 238-244): five empty containers, no system_settings. -/
def defaultData : Doc :=
  { conversations := some [], user_data := some [], web_content := some [],
    recent_bot_topics := some [], recent_topics := some [] }

/-- The five required top-level keys are all present. -/
def hasFive (d : Doc) : Bool :=
  d.conversations.isSome && d.user_data.isSome && d.web_content.isSome &&
  d.recent_bot_topics.isSome && d.recent_topics.isSome

/-- How a fresh (non-cached) load_data call ends
(shared_memory.py 180-274): a direct parse, a parse after the backup
restore of the first recovery step, a parse after the structural repair of
the second step, or the give-up default after all retries. -/
inductive LoadOutcome where
  | parseOk (d : Doc)
  | restoredBackup (d : Doc)
  | repaired (d : Doc)
  | giveUp

/-- The document a fresh read returns for each outcome: every successful
parse is backfilled, and the give-up paths return the default document. -/
def loadFresh : LoadOutcome → Doc
  | .parseOk d => backfill d
  | .restoredBackup d => backfill d
  | .repaired d => backfill d
  | .giveUp => defaultData

/-- Which branch a load_data call takes: the short-lived cache, or a fresh
read with some outcome. -/
inductive LoadPath where
  | cacheHit
  | fresh (o : LoadOutcome)

/-- Result of load_data given the cached document and the path taken
(shared_memory.py 169-274). -/
def loadData (cache : Doc) : LoadPath → Doc
  | .cacheHit => cache
  | .fresh o => loadFresh o

/-- The store mutators that call save_data on a document obtained from
load_data (shared_memory.py): each one is applied to the loaded document
and the result becomes the new cache. -/
inductive Mut where
  | addConv (r : ConvRec) (now : Nat)
  | addWeb (w : Nat)
  | updUser (u : String) (v : Nat)
  | addBotTopic (t : Nat)
  | setSetting (k v : String)
  | addRecent (b : String) (q : Str) (now : Int)
  | cleanupTopics (minutes : Nat) (now : Int)

/-- Association-list upsert for flat maps. -/
def setAssoc {α : Type} (m : List (String × α)) (k : String) (v : α) :
    List (String × α) :=
  if m.any (fun p => p.1 == k) then
    m.map (fun p => if p.1 == k then (k, v) else p)
  else m ++ [(k, v)]

/-- Effect of each mutator on the document (shared_memory.py 441-976).
A missing required key would raise inside the mutator's try/except before
save_data is called, leaving the cache unchanged, hence the identity in
those cases. -/
def applyMut : Mut → Doc → Doc
  | .addConv r now, d =>
      match d.conversations with
      | some l => { d with conversations := some (addConversation l r now) }
      | none => d
  | .addWeb w, d =>
      match d.web_content with
      | some l =>
          let l2 := l ++ [w]
          let l3 := if 100 < l2.length then l2.drop (l2.length - 100) else l2
          { d with web_content := some l3 }
      | none => d
  | .updUser u v, d =>
      match d.user_data with
      | some m => { d with user_data := some (setAssoc m u v) }
      | none => d
  | .addBotTopic t, d =>
      { d with recent_bot_topics := some ((t :: d.recent_bot_topics.getD []).take 50) }
  | .setSetting k v, d =>
      { d with system_settings := some (setAssoc (d.system_settings.getD []) k v) }
  | .addRecent b q now, d =>
      let tm2 := addRecentlyUsedTopic (d.recent_topics.getD []) b q now
      { d with recent_topics := some tm2 }
  | .cleanupTopics minutes now, d =>
      match d.recent_topics with
      | some tm =>
          let tm2 := tm.map (fun p =>
            (p.1, p.2.filter (fun t => now - (minutes : Int) * 60 < t.time)))
          { d with recent_topics := some tm2,
                   recent_bot_topics := some (d.recent_bot_topics.getD []) }
      | none => d

/-- Documents the in-memory cache can hold: set by ensure_file_exists (a
backfilled parse or the default), by a fresh load_data read, or by
save_data with a mutated loaded document (shared_memory.py). -/
inductive CacheReach : Doc → Prop where
  | initFile (d : Doc) : CacheReach (backfill d)
  | initDefault : CacheReach defaultData
  | load (o : LoadOutcome) : CacheReach (loadFresh o)
  | save (c : Doc) (m : Mut) : CacheReach c → CacheReach (applyMut m c)

/-- Word characters in the sense of regex `\w` and `\b`. -/
def isWordChar (c : Char) : Bool := c.isAlphanum || c == '_'

/-- The character before the candidate match position is a word boundary. -/
def boundaryPrev (prev : Option Char) : Bool :=
  match prev with
  | none => true
  | some c => !isWordChar c

/-- The character after the candidate match is a word boundary. -/
def boundaryAfter (rest : Str) : Bool :=
  match rest with
  | [] => true
  | c :: _ => !isWordChar c

/-- Helper scanning all positions, carrying the previous character. -/
def occursWBAux (pat : Str) : Option Char → Str → Bool
  | prev, [] => boundaryPrev prev && isPrefixL pat [] && true
  | prev, c :: rest =>
      (boundaryPrev prev && isPrefixL pat (c :: rest) &&
        boundaryAfter ((c :: rest).drop pat.length)) ||
      occursWBAux pat (some c) rest

/-- Occurrence of `pat` in the text delimited by word boundaries on both
sides, the matching the specification describes for name mentions. -/
def occursWordBounded (pat s : Str) : Bool := occursWBAux pat none s

/-- Nickname table of the specification's name-mention stage, as listed in
is_bot_name_mentioned. -/
def specNicknames (b : String) : List Str :=
  if b = "bot1" then [("max".toList), ("btc".toList)]
  else if b = "bot2" then [("evan".toList), ("$evan".toList)]
  else if b = "bot3" then [("goldy".toList), ("goldilocks".toList)]
  else []

/-- Modelled from the spec: the name-mention scan of specification stage 5,
which matches each agent's canonical name and known nicknames "using
word-boundary matching".  Used only to compare the specified matching with
the code's substring matching. -/
def specWordBoundaryMentioned (b : String) (text : Str) : Bool :=
  ((botNameOf b) :: specNicknames b).any
    (fun n => occursWordBounded (lowerS n) (lowerS text))

/-- Modelled from the spec: the topic normalization of specification 4.5,
"lower-cased, punctuation stripped" (regex `[^\w\s]` removal).  Used only to
compare the specified comparison with the code's lowercase-only one. -/
def specNormalizeTopic (s : Str) : Str :=
  (lowerS s).filter (fun c => c.isAlphanum || c == '_' || c.isWhitespace)

/-- The full bot registry as built in main() with all three tokens set. -/
def bots3 : List String := ["bot1", "bot2", "bot3"]

/-- A fixed random source for concrete evaluations. -/
def rng0 : RNG := ⟨99, false, fun _ => "bot1"⟩

set_option maxRecDepth 8000

theorem generalStage_reason (bots : List String) (text : Str) (rng : RNG) :
    (generalStage bots text rng).2 = none ∨
    (generalStage bots text rng).2 = some "general_request" ∨
    (generalStage bots text rng).2 = some "general_request_fallback" ∨
    (generalStage bots text rng).2 = some "random_short_message_fallback" := by
  unfold generalStage
  split_ifs <;>
    first
      | exact Or.inl rfl
      | exact Or.inr (Or.inl rfl)
      | exact Or.inr (Or.inr (Or.inl rfl))
      | exact Or.inr (Or.inr (Or.inr rfl))

theorem finalStage_none_reason (bots : List String) (store : List ConvRec) (text : Str) :
    (finalStage bots store text none).reason = none ∨
    (finalStage bots store text none).reason = some "search_keyword_fallback" := by
  unfold finalStage
  simp only [Option.getD_none, ne_eq, not_true_eq_false, if_false]
  split_ifs <;>
    first
      | exact Or.inl rfl
      | exact Or.inr rfl

theorem afterChain_of_ne_nil (bots : List String) (store : List ConvRec) (text : Str)
    (rto : Option Nat) (rng : RNG) (sel : List String × Option String)
    (h : sel.1 ≠ []) :
    afterChain bots store text rto rng sel = ⟨sel.1, sel.2, false⟩ := by
  unfold afterChain
  obtain ⟨s, r⟩ := sel
  cases s with
  | nil => simp at h
  | cons a as => rfl

theorem afterChain_of_nil_sel (bots : List String) (store : List ConvRec) (text : Str)
    (rto : Option Nat) (rng : RNG) :
    afterChain bots store text rto rng ([], none) =
      (if (generalStage bots text rng).1.isEmpty then finalStage bots store text rto
       else ⟨(generalStage bots text rng).1, (generalStage bots text rng).2, false⟩) := by
  unfold afterChain
  rfl

theorem nameMentionStage_one (bots : List String) (text : Str)
    (h : (bots.filter (fun b => isBotNameMentioned b text bots)).length = 1) :
    nameMentionStage bots text =
      (bots.filter (fun b => isBotNameMentioned b text bots), some "name_mention") := by
  unfold nameMentionStage
  simp only [h, beq_self_eq_true, if_true]

theorem nameMentionStage_multi (bots : List String) (text : Str)
    (h : 1 < (bots.filter (fun b => isBotNameMentioned b text bots)).length) :
    nameMentionStage bots text =
      (bots.filter (fun b => isBotNameMentioned b text bots),
       some "multiple_name_mentions") := by
  unfold nameMentionStage
  have hne : ((bots.filter (fun b => isBotNameMentioned b text bots)).length == 1) = false := by
    rw [beq_eq_false_iff_ne]
    omega
  simp only [hne, Bool.false_eq_true, if_false, if_pos h]

theorem nameMentionStage_nil (bots : List String) (text : Str)
    (h : bots.filter (fun b => isBotNameMentioned b text bots) = []) :
    nameMentionStage bots text = ([], none) := by
  unfold nameMentionStage
  simp only [h, List.length_nil]
  rfl

theorem route_cons_eq (bots : List String) (store : List ConvRec) (b0 : String)
    (fr : Report) (rest : List (String × Report)) (rng : RNG)
    (hspam : isSpam fr.message_text = false)
    (hpq : ∀ p ∈ (b0, fr) :: rest, (Prod.snd p).is_personal_question = false) :
    route bots store ((b0, fr) :: rest) rng =
      routeChain bots store fr.message_text fr.replied_to rng := by
  have hfilter : ((b0, fr) :: rest).filter (fun p => p.2.is_personal_question) = [] := by
    rw [List.filter_eq_nil_iff]
    intro a ha
    simp [hpq a ha]
  simp only [route, hspam, Bool.false_eq_true, if_false, hfilter, List.isEmpty_nil,
    Bool.not_true]

theorem routeChain_plain (bots : List String) (store : List ConvRec) (text : Str)
    (rng : RNG) (htok : containsSub ("$evan".toList) (lowerS text) = false) :
    routeChain bots store text none rng =
      afterChain bots store text none rng (nameMentionStage bots text) := by
  simp only [routeChain, htok, Bool.false_and, Option.getD_none, ne_eq,
    not_true_eq_false, Bool.false_eq_true, if_false]

theorem findTopicMatch_isSome (q : Str) (m : TopicMap) :
    (findTopicMatch q m).isSome = true ↔
      ∃ p ∈ m, ∃ t ∈ p.2, topicMatch t.query q = true := by
  induction m with
  | nil => simp [findTopicMatch]
  | cons hd tl ih =>
      obtain ⟨b, ts⟩ := hd
      simp only [findTopicMatch]
      cases hF : ts.find? (fun t => topicMatch t.query q) with
      | some t =>
          simp only [Option.isSome_some, true_iff]
          exact ⟨(b, ts), List.mem_cons_self _ _, t, List.mem_of_find?_eq_some hF,
            by simpa using List.find?_some hF⟩
      | none =>
          rw [ih]
          constructor
          · rintro ⟨p, hp, t, ht, hm⟩
            exact ⟨p, List.mem_cons_of_mem _ hp, t, ht, hm⟩
          · rintro ⟨p, hp, t, ht, hm⟩
            rcases List.mem_cons.mp hp with heq | hp2
            · subst heq
              exact absurd hm (by simpa using List.find?_eq_none.mp hF t ht)
            · exact ⟨p, hp2, t, ht, hm⟩

theorem isTopicRecentlyUsed_fst (tm : TopicMap) (q : Str) (minutes : Nat) (now : Int) :
    (isTopicRecentlyUsed tm q minutes now).1 =
      (findTopicMatch q (getRecentlyUsedTopics tm minutes now)).isSome := by
  unfold isTopicRecentlyUsed
  cases findTopicMatch q (getRecentlyUsedTopics tm minutes now) <;> rfl

theorem mem_getRecentlyUsedTopics (tm : TopicMap) (minutes : Nat) (now : Int)
    (M : TopicEntry → Prop) :
    (∃ p ∈ getRecentlyUsedTopics tm minutes now, ∃ t ∈ p.2, M t) ↔
      ∃ p ∈ tm, ∃ t ∈ p.2, (now - (minutes : Int) * 60 < t.time) ∧ M t := by
  unfold getRecentlyUsedTopics
  constructor
  · rintro ⟨p, hp, t, ht, hM⟩
    rw [List.mem_filter] at hp
    obtain ⟨hp1, _⟩ := hp
    rw [List.mem_map] at hp1
    obtain ⟨p0, hp0, heq⟩ := hp1
    rw [← heq] at ht
    simp only at ht
    rw [List.mem_filter] at ht
    obtain ⟨ht1, ht2⟩ := ht
    exact ⟨p0, hp0, t, ht1, of_decide_eq_true ht2, hM⟩
  · rintro ⟨p, hp, t, ht, hfresh, hM⟩
    have htf : t ∈ p.2.filter (fun t => decide (now - (minutes : Int) * 60 < t.time)) :=
      List.mem_filter.mpr ⟨ht, decide_eq_true hfresh⟩
    refine ⟨(p.1, p.2.filter (fun t => decide (now - (minutes : Int) * 60 < t.time))),
      ?_, t, htf, hM⟩
    rw [List.mem_filter]
    refine ⟨List.mem_map_of_mem _ hp, ?_⟩
    simp only [Bool.not_eq_true']
    rw [Bool.eq_false_iff]
    intro hE
    rw [List.isEmpty_iff] at hE
    rw [hE] at htf
    exact absurd htf (List.not_mem_nil t)

theorem topicMatch_iff (u q : Str) :
    topicMatch u q = true ↔
      (lowerS u = lowerS q ∨ (10 < (lowerS q).length ∧
        (containsSub (lowerS u) (lowerS q) = true ∨
         containsSub (lowerS q) (lowerS u) = true))) := by
  unfold topicMatch
  simp [Bool.or_eq_true, Bool.and_eq_true, beq_iff_eq, decide_eq_true_eq]

theorem hasFive_backfill (d : Doc) : hasFive (backfill d) = true := rfl

theorem hasFive_loadFresh (o : LoadOutcome) : hasFive (loadFresh o) = true := by
  cases o <;> rfl

theorem hasFive_applyMut (m : Mut) (d : Doc) (h : hasFive d = true) :
    hasFive (applyMut m d) = true := by
  cases m with
  | addConv r now =>
      cases hC : d.conversations <;> simp_all [applyMut, hasFive]
  | addWeb w =>
      cases hC : d.web_content <;> simp_all [applyMut, hasFive]
  | updUser u v =>
      cases hC : d.user_data <;> simp_all [applyMut, hasFive]
  | addBotTopic t =>
      simp_all [applyMut, hasFive]
  | setSetting k v =>
      simp_all [applyMut, hasFive]
  | addRecent b q now =>
      simp_all [applyMut, hasFive]
  | cleanupTopics minutes now =>
      cases hC : d.recent_topics <;> simp_all [applyMut, hasFive]

theorem cacheReach_hasFive (d : Doc) (h : CacheReach d) : hasFive d = true := by
  induction h with
  | initFile d0 => exact hasFive_backfill d0
  | initDefault => rfl
  | load o => exact hasFive_loadFresh o
  | save c m _ ih => exact hasFive_applyMut m c ih

/-- Claim C1: the specification asserts exactly-once dispatch — the routing
pipeline runs at most once per message id and a late report is discarded and
cannot reopen a dispatched id.  The code violates this: after a dispatch
that deletes the pending bucket (here a spam veto), a late report recreates
the bucket through the defaultdict, finds no timer handle, starts a second
debounce timer, and the pipeline runs a second time for the same message id,
as this concrete event trace shows. -/
theorem c1_pipeline_invoked_twice_after_dispatch :
    (aggRun bots3 [] rng0
      [AggEv.report 1 "bot1" { message_text := ("forwarded from telegram".toList) },
       AggEv.fire 1,
       AggEv.report 1 "bot1" { message_text := ("forwarded from telegram".toList) },
       AggEv.fire 1]).invoked = [1, 1] := by decide

/-- Claim C2: the specification asserts that with no earlier stage selecting
and at least one interested agent, the router selects one interested agent
with an interest-priority reason.  The code's interest block is the fourth
`elif` of a chain whose third `elif` tests the same always-true condition,
so it is unreachable: with bot1 interested and a plain six-word message that
triggers no other stage, the router selects nobody for every random draw. -/
theorem c2_interest_stage_never_selects :
    (∀ rng : RNG, route bots3 []
        [("bot1", { is_interested := true,
                    message_text :=
                      ("banana banana banana banana banana banana".toList) })] rng =
        ⟨[], none, false⟩) ∧
    Report.is_interested
      { is_interested := true,
        message_text := ("banana banana banana banana banana banana".toList) } = true :=
  ⟨fun _ => rfl, rfl⟩

/-- Claim C3: the specification asserts that the first recovery step
restores the newest backup produced by the write path.  The code's write
path stores backups under `backups/<basename>.backup.<timestamp>`, while
the restore glob looks for `<file_path>.backup.*` next to the primary file,
so a write-path backup never matches the restore pattern, for any timestamp,
and the restore step finds nothing even when such a backup exists. -/
theorem c3_backup_restore_path_mismatch :
    (∀ ts : Str, restoreGlobMatch ("shared_memory.json".toList)
        (backupSavePath ("shared_memory.json".toList) ts) = false) ∧
    tryRestoreFromBackup
      [{ path := ("shared_memory.json".toList),
         content := ("not valid json".toList), mtime := 10 },
       { path := backupSavePath ("shared_memory.json".toList) ("20250101000000".toList),
         content := ("previous version".toList), mtime := 5 }]
      ("shared_memory.json".toList) = none :=
  ⟨fun _ => rfl, by decide⟩

/-- Claim C4: for every report bundle whose message text matches a spam
pattern, the routing pipeline selects no responding agent and returns
immediately (deleting the pending entry), regardless of any reported
interest or token mention — the later cascade stages are never reached. -/
theorem c4_spam_veto_precedence :
    ∀ (bots : List String) (store : List ConvRec) (b0 : String) (fr : Report)
      (rest : List (String × Report)) (rng : RNG),
      spamPatternHit (lowerS fr.message_text) = true →
      route bots store ((b0, fr) :: rest) rng = ⟨[], none, true⟩ := by
  intro bots store b0 fr rest rng h
  simp [route, isSpam, h]

/-- Witness for C4: a forwarded-message banner together with a designated
token mention and two interested agents still yields the empty selection. -/
theorem c4_spam_veto_precedence_witness :
    spamPatternHit (lowerS ("forwarded from $evan raid group".toList)) = true ∧
    route bots3 []
      [("bot1", { is_interested := true,
                  message_text := ("forwarded from $evan raid group".toList) }),
       ("bot2", { is_interested := true,
                  message_text := ("forwarded from $evan raid group".toList) })] rng0 =
      ⟨[], none, true⟩ :=
  ⟨by decide,
   c4_spam_veto_precedence bots3 [] "bot1"
     { is_interested := true,
       message_text := ("forwarded from $evan raid group".toList) }
     [("bot2", { is_interested := true,
                 message_text := ("forwarded from $evan raid group".toList) })]
     rng0 (by decide)⟩

/-- Claim C5 counterexample: the specification says the name scan uses
word-boundary matching.  On a message whose only name occurrence sits inside
a longer word, the word-boundary scan matches no agent for any of the three
bots — yet the code selects bot3 with reason name_mention, because the
canonical-name check is plain substring containment. -/
theorem c5_word_boundary_counterexample :
    (specWordBoundaryMentioned "bot1"
        ("nongoldilocksish vibes today everyone okay then".toList) = false ∧
     specWordBoundaryMentioned "bot2"
        ("nongoldilocksish vibes today everyone okay then".toList) = false ∧
     specWordBoundaryMentioned "bot3"
        ("nongoldilocksish vibes today everyone okay then".toList) = false) ∧
    route bots3 []
      [("bot1", { message_text :=
          ("nongoldilocksish vibes today everyone okay then".toList) })] rng0 =
      ⟨["bot3"], some "name_mention", false⟩ := by decide

/-- Claim C5 as amended: for every non-spam, non-reply bundle with no
personal-question flag and no designated-token mention, the router matches
each agent by substring containment of the canonical name and
whitespace-token equality of the nicknames (not word boundaries); exactly
one match is selected with reason name_mention, several matches select the
union with reason multiple_name_mentions, and with no match the stage
selects nobody (no name-mention reason is produced). -/
theorem c5_name_mention_substring_amended :
    ∀ (bots : List String) (store : List ConvRec) (b0 : String) (fr : Report)
      (rest : List (String × Report)) (rng : RNG),
      isSpam fr.message_text = false →
      (∀ p ∈ (b0, fr) :: rest, (Prod.snd p).is_personal_question = false) →
      containsSub ("$evan".toList) (lowerS fr.message_text) = false →
      fr.replied_to = none →
      (((bots.filter (fun b => isBotNameMentioned b fr.message_text bots)).length = 1 →
        route bots store ((b0, fr) :: rest) rng =
          ⟨bots.filter (fun b => isBotNameMentioned b fr.message_text bots),
           some "name_mention", false⟩) ∧
       (1 < (bots.filter (fun b => isBotNameMentioned b fr.message_text bots)).length →
        route bots store ((b0, fr) :: rest) rng =
          ⟨bots.filter (fun b => isBotNameMentioned b fr.message_text bots),
           some "multiple_name_mentions", false⟩) ∧
       ((bots.filter (fun b => isBotNameMentioned b fr.message_text bots)) = [] →
        (route bots store ((b0, fr) :: rest) rng).reason ≠ some "name_mention" ∧
        (route bots store ((b0, fr) :: rest) rng).reason ≠ some "multiple_name_mentions")) := by
  intro bots store b0 fr rest rng hspam hpq htok hrto
  have hroute : route bots store ((b0, fr) :: rest) rng =
      afterChain bots store fr.message_text none rng
        (nameMentionStage bots fr.message_text) := by
    rw [route_cons_eq bots store b0 fr rest rng hspam hpq, hrto,
      routeChain_plain bots store fr.message_text rng htok]
  refine ⟨?_, ?_, ?_⟩
  · intro hlen
    rw [hroute, nameMentionStage_one bots fr.message_text hlen,
      afterChain_of_ne_nil bots store fr.message_text none rng _ ?_]
    intro hc
    have hc2 : bots.filter (fun b => isBotNameMentioned b fr.message_text bots) = [] := hc
    rw [hc2] at hlen
    simp at hlen
  · intro hlen
    rw [hroute, nameMentionStage_multi bots fr.message_text hlen,
      afterChain_of_ne_nil bots store fr.message_text none rng _ ?_]
    intro hc
    have hc2 : bots.filter (fun b => isBotNameMentioned b fr.message_text bots) = [] := hc
    rw [hc2] at hlen
    simp at hlen
  · intro hnil
    rw [hroute, nameMentionStage_nil bots fr.message_text hnil, afterChain_of_nil_sel]
    by_cases hg : (generalStage bots fr.message_text rng).1.isEmpty
    · rw [if_pos hg]
      rcases finalStage_none_reason bots store fr.message_text with h | h <;>
        rw [h] <;> exact ⟨by decide, by decide⟩
    · rw [if_neg hg]
      rcases generalStage_reason bots fr.message_text rng with h | h | h | h <;>
        refine ⟨?_, ?_⟩ <;> simp only [h] <;> decide

/-- Witness for the amended C5: a single nickname mention of bot1 routes to
bot1 with reason name_mention. -/
theorem c5_name_mention_substring_amended_witness :
    route bots3 []
      [("bot2", { message_text :=
          ("hey max stack those sats today my friend".toList) })] rng0 =
      ⟨bots3.filter (fun b => isBotNameMentioned b
          ("hey max stack those sats today my friend".toList) bots3),
       some "name_mention", false⟩ ∧
    bots3.filter (fun b => isBotNameMentioned b
        ("hey max stack those sats today my friend".toList) bots3) = ["bot1"] :=
  ⟨(c5_name_mention_substring_amended bots3 [] "bot2"
      { message_text := ("hey max stack those sats today my friend".toList) } [] rng0
      (by decide) (by decide) (by decide) rfl).1 (by decide), by decide⟩

/-- Claim C6 counterexample: the claim as stated omits the earlier cascade
stages.  A non-spam message that replies to message 42, recorded as authored
by bot3, but whose text mentions the designated $EVAN token, routes to bot2
with the token reason instead of to the replied-to author bot3. -/
theorem c6_token_preempts_reply_counterexample :
    (findRepliedBot
        (lastN 500 [{ message_id := some 42, sender_type := some "bot",
                      sender_id := some "bot3" }]) 42 = some "bot3" ∧
     bots3.contains "bot3" = true) ∧
    route bots3
      [{ message_id := some 42, sender_type := some "bot", sender_id := some "bot3" }]
      [("bot3", { is_interested := false,
                  message_text := ("$evan to the moon".toList),
                  replied_to := some 42 })] rng0 =
      ⟨["bot2"], some "$evan_token_mention", false⟩ := by decide

/-- Claim C6 as amended: for every non-spam bundle with no personal-question
flag and no designated-token mention, carrying a replied-to message id whose
first matching record in the recent 500-message window was authored by a
registry bot, the router selects exactly that bot with a direct-reply
reason, independently of the reports' interest values and of any
content-based inference. -/
theorem c6_reply_chain_amended :
    ∀ (bots : List String) (store : List ConvRec) (b0 : String) (fr : Report)
      (rest : List (String × Report)) (rng : RNG) (rid : Nat) (b : String),
      isSpam fr.message_text = false →
      (∀ p ∈ (b0, fr) :: rest, (Prod.snd p).is_personal_question = false) →
      containsSub ("$evan".toList) (lowerS fr.message_text) = false →
      fr.replied_to = some rid → rid ≠ 0 →
      findRepliedBot (lastN 500 store) rid = some b →
      bots.contains b = true →
      route bots store ((b0, fr) :: rest) rng =
        ⟨[b], some (directReplyReason b), true⟩ := by
  intro bots store b0 fr rest rng rid b hspam hpq htok hrto hrid hfind hin
  rw [route_cons_eq bots store b0 fr rest rng hspam hpq, hrto]
  simp only [routeChain, htok, Bool.false_and, Option.getD_some, ne_eq, hrid,
    not_false_eq_true, if_true, Bool.false_eq_true, if_false]
  unfold replyBranch
  simp only [hfind, hin, if_true]

/-- Witness for the amended C6: a reply to message 42 recorded as authored
by bot3 routes to bot3 with the goldilocks direct-reply reason even though
bot3's report declared not interested. -/
theorem c6_reply_chain_amended_witness :
    route bots3
      [{ message_id := some 42, sender_type := some "bot", sender_id := some "bot3" }]
      [("bot3", { is_interested := false,
                  message_text :=
                    ("nice garden story thanks friend enjoyed that greatly".toList),
                  replied_to := some 42 })] rng0 =
      ⟨["bot3"], some (directReplyReason "bot3"), true⟩ ∧
    directReplyReason "bot3" = "direct_reply_to_goldilocks" :=
  ⟨c6_reply_chain_amended bots3
      [{ message_id := some 42, sender_type := some "bot", sender_id := some "bot3" }]
      "bot3"
      { is_interested := false,
        message_text :=
          ("nice garden story thanks friend enjoyed that greatly".toList),
        replied_to := some 42 }
      [] rng0 42 "bot3"
      (by decide) (by decide) (by decide) rfl (by decide) (by decide) (by decide),
   by decide⟩

/-- Claim C7 counterexample: the spec says texts are compared after
lower-casing and punctuation stripping, with equality a match.  The stored
topic "hello!" and the candidate "hello" are equal after that normalization,
yet the code reports no match within the window, because it only lowercases
and the ten-character containment branch does not apply. -/
theorem c7_normalization_counterexample :
    specNormalizeTopic ("hello".toList) = specNormalizeTopic ("hello!".toList) ∧
    (isTopicRecentlyUsed (addRecentlyUsedTopic [] "agentA" ("hello!".toList) 0)
        ("hello".toList) 10 60).1 = false := by decide

/-- Claim C7 as amended: is_topic_recently_used reports a match exactly when
some ledger entry inside the time window agrees with the candidate after
lower-casing only (no punctuation stripping), or, when the lowercased
candidate is longer than ten characters, one lowercased text contains the
other; the specification's round-trip example behaves as stated, returning
true within the window and false after it elapses. -/
theorem c7_topic_match_amended :
    (∀ (tm : TopicMap) (q : Str) (minutes : Nat) (now : Int),
      ((isTopicRecentlyUsed tm q minutes now).1 = true ↔
        ∃ p ∈ tm, ∃ t ∈ p.2, (now - (minutes : Int) * 60 < t.time) ∧
          (lowerS t.query = lowerS q ∨ (10 < (lowerS q).length ∧
            (containsSub (lowerS t.query) (lowerS q) = true ∨
             containsSub (lowerS q) (lowerS t.query) = true))))) ∧
    ((isTopicRecentlyUsed (addRecentlyUsedTopic [] "agentA"
        ("Bitcoin price update, following market".toList) 0)
        ("bitcoin price update".toList) 30 60).1 = true ∧
     (isTopicRecentlyUsed (addRecentlyUsedTopic [] "agentA"
        ("Bitcoin price update, following market".toList) 0)
        ("bitcoin price update".toList) 30 3600).1 = false) := by
  refine ⟨?_, by decide, by decide⟩
  intro tm q minutes now
  rw [isTopicRecentlyUsed_fst, findTopicMatch_isSome,
    mem_getRecentlyUsedTopics tm minutes now (fun t => topicMatch t.query q = true)]
  simp only [topicMatch_iff]

/-- Claim C8: for every record carrying both a message id and a sender type,
add_conversation leaves the log unchanged when a record with the same
(message_id, sender_type) key is present, and otherwise appends the
(timestamped) record at the end; the log never exceeds 1000 records, and on
overflow the oldest records are evicted first, the result being a suffix of
the appended log with the new record last. -/
theorem c8_add_conversation_dedup_cap :
    ∀ (log : List ConvRec) (r : ConvRec) (now : Nat),
      r.message_id ≠ none → r.sender_type ≠ none → log.length ≤ 1000 →
      ((∃ e ∈ log, e.message_id = r.message_id ∧ e.sender_type = r.sender_type) →
          addConversation log r now = log) ∧
      ((∀ e ∈ log, ¬(e.message_id = r.message_id ∧ e.sender_type = r.sender_type)) →
          (addConversation log r now).length ≤ 1000 ∧
          (addConversation log r now) <:+ (log ++ [withTimestamp r now]) ∧
          (addConversation log r now).getLast? = some (withTimestamp r now)) := by
  intro log r now hmid hstype hlen
  obtain ⟨a, ha⟩ := Option.ne_none_iff_exists'.mp hmid
  obtain ⟨b, hb⟩ := Option.ne_none_iff_exists'.mp hstype
  have hdup_iff : dupKey log r = true ↔
      ∃ e ∈ log, e.message_id = r.message_id ∧ e.sender_type = r.sender_type := by
    unfold dupKey
    rw [ha, hb]
    simp [List.any_eq_true, ha, hb]
  constructor
  · intro hex
    unfold addConversation
    rw [if_pos (hdup_iff.mpr hex)]
  · intro hnone
    have hdup : dupKey log r = false := by
      rw [Bool.eq_false_iff]
      intro hT
      obtain ⟨e, he, hc⟩ := hdup_iff.mp hT
      exact hnone e he hc
    unfold addConversation
    simp only [hdup, Bool.false_eq_true, if_false]
    by_cases hc : 1000 < (log ++ [withTimestamp r now]).length
    · rw [if_pos hc]
      have hlog : log.length = 1000 := by
        simp only [List.length_append, List.length_cons, List.length_nil] at hc
        omega
      refine ⟨?_, List.drop_suffix _ _, ?_⟩
      · simp only [List.length_drop, List.length_append, List.length_cons,
          List.length_nil]
        omega
      · have hlen2 : (log ++ [withTimestamp r now]).length - 1000 = 1 := by
          simp only [List.length_append, List.length_cons, List.length_nil]
          omega
        rw [hlen2, List.drop_append_of_le_length (by omega)]
        exact List.getLast?_concat _
    · rw [if_neg hc]
      refine ⟨?_, List.suffix_refl _, List.getLast?_concat _⟩
      simp only [List.length_append, List.length_cons, List.length_nil] at hc ⊢
      omega

/-- Witness for C8: appending a keyed record to the empty log yields a
one-record log ending in the timestamped record. -/
theorem c8_add_conversation_dedup_cap_witness :
    (addConversation [] { message_id := some 7, sender_type := some "user" } 5).length ≤ 1000 ∧
    (addConversation [] { message_id := some 7, sender_type := some "user" } 5) <:+
      ([] ++ [withTimestamp { message_id := some 7, sender_type := some "user" } 5]) ∧
    (addConversation [] { message_id := some 7, sender_type := some "user" } 5).getLast? =
      some (withTimestamp { message_id := some 7, sender_type := some "user" } 5) :=
  (c8_add_conversation_dedup_cap [] { message_id := some 7, sender_type := some "user" } 5
      (by decide) (by decide) (by decide)).2 (by simp)

/-- Claim C9: in the save_data model, the serialized content reaches the
primary file only through the final atomic rename of a successful attempt:
a completed write leaves the primary file holding the new serialization, a
failed write leaves it holding the old content, and every state observable
during the retry loop shows the primary file with either the old or the new
content, never a partial write. -/
theorem c9_save_write_atomicity :
    ∀ (content : Str) (st : FsimState) (outs : List SaveAttemptOutcome),
      ((runSave content st outs).2 = true →
        (runSave content st outs).1.primary = content) ∧
      ((runSave content st outs).2 = false →
        (runSave content st outs).1.primary = st.primary) ∧
      (∀ s ∈ saveObservables content st outs,
        s.primary = st.primary ∨ s.primary = content) := by
  intro content st outs
  induction outs generalizing st with
  | nil =>
      refine ⟨?_, fun _ => rfl, ?_⟩
      · intro h
        simp [runSave] at h
      · intro s hs
        simp only [saveObservables, List.mem_singleton] at hs
        subst hs
        exact Or.inl rfl
  | cons o os ih =>
      cases o with
      | ok =>
          refine ⟨fun _ => rfl, ?_, ?_⟩
          · intro h
            simp [runSave] at h
          · intro s hs
            simp only [saveObservables, attemptStates, List.mem_cons,
              List.mem_singleton, List.not_mem_nil] at hs
            rcases hs with h | h | h | h
            · exact Or.inl (by rw [h])
            · exact Or.inl (by rw [h])
            · exact Or.inr (by rw [h])
            · exact absurd h (by simp)
      | tmpWriteFail g =>
          have hp : (runAttempt content st (SaveAttemptOutcome.tmpWriteFail g)).primary
              = st.primary := rfl
          refine ⟨?_, ?_, ?_⟩
          · intro h
            have h2 := (ih (runAttempt content st (SaveAttemptOutcome.tmpWriteFail g))).1
            simp only [runSave] at h ⊢
            exact h2 h
          · intro h
            have h2 := (ih (runAttempt content st (SaveAttemptOutcome.tmpWriteFail g))).2.1
            simp only [runSave] at h ⊢
            rw [h2 h, hp]
          · intro s hs
            simp only [saveObservables, attemptStates, List.mem_append, List.mem_cons,
              List.mem_singleton, List.not_mem_nil] at hs
            rcases hs with (h | h | h) | h
            · exact Or.inl (by rw [h])
            · exact Or.inl (by rw [h])
            · exact absurd h (by simp)
            · rcases (ih (runAttempt content st (SaveAttemptOutcome.tmpWriteFail g))).2.2
                s h with h2 | h2
              · exact Or.inl (by rw [h2, hp])
              · exact Or.inr h2
      | renameFail =>
          have hp : (runAttempt content st SaveAttemptOutcome.renameFail).primary
              = st.primary := rfl
          refine ⟨?_, ?_, ?_⟩
          · intro h
            have h2 := (ih (runAttempt content st SaveAttemptOutcome.renameFail)).1
            simp only [runSave] at h ⊢
            exact h2 h
          · intro h
            have h2 := (ih (runAttempt content st SaveAttemptOutcome.renameFail)).2.1
            simp only [runSave] at h ⊢
            rw [h2 h, hp]
          · intro s hs
            simp only [saveObservables, attemptStates, List.mem_append, List.mem_cons,
              List.mem_singleton, List.not_mem_nil] at hs
            rcases hs with (h | h | h) | h
            · exact Or.inl (by rw [h])
            · exact Or.inl (by rw [h])
            · exact absurd h (by simp)
            · rcases (ih (runAttempt content st SaveAttemptOutcome.renameFail)).2.2
                s h with h2 | h2
              · exact Or.inl (by rw [h2, hp])
              · exact Or.inr h2

/-- Witness for C9: a run whose first attempt tears the temporary file and
whose second attempt succeeds completes with the new content as primary. -/
theorem c9_save_write_atomicity_witness :
    (runSave ("new content".toList) { primary := ("old content".toList), tmpFile := none }
        [SaveAttemptOutcome.tmpWriteFail [], SaveAttemptOutcome.ok]).1.primary =
      ("new content".toList) :=
  (c9_save_write_atomicity ("new content".toList)
      { primary := ("old content".toList), tmpFile := none }
      [SaveAttemptOutcome.tmpWriteFail [], SaveAttemptOutcome.ok]).1 (by decide)

/-- Claim C10: every document load_data returns — from the short-lived
cache, a successful parse, either recovery fallback, or the give-up default
— carries all five required keys (conversations, user_data, web_content,
recent_bot_topics, recent_topics), because every fresh read backfills them
and every document the cache can hold has them; system_settings is not part
of the guarantee: backfilling never adds it and the default document lacks
it. -/
theorem c10_load_data_required_fields :
    (∀ (c : Doc) (p : LoadPath), CacheReach c → hasFive (loadData c p) = true) ∧
    (∀ d : Doc, (backfill d).system_settings = d.system_settings) ∧
    defaultData.system_settings = none := by
  refine ⟨?_, fun d => rfl, rfl⟩
  intro c p hc
  cases p with
  | cacheHit => exact cacheReach_hasFive c hc
  | fresh o => exact hasFive_loadFresh o

/-- Witness for C10: a cache hit on the reachable default document returns
a document with the five required keys. -/
theorem c10_load_data_required_fields_witness :
    hasFive (loadData defaultData LoadPath.cacheHit) = true :=
  c10_load_data_required_fields.1 defaultData LoadPath.cacheHit CacheReach.initDefault
